import Mathlib

/-!
Shallow embedding of `custom_components/rte_ecowatt/config_flow.py`.

The file models the two Home Assistant data-entry flows of the integration:
`SetupConfigFlow` (initial setup) and `OptionsFlowHandler` (options edit).
Python dictionaries are modelled as structures; a dictionary key that may be
absent becomes an `Option` field.  Host-side behaviour that the flow relies on
(schema validation of submitted forms, unique-id registration, the entity
registry) is modelled explicitly and marked as such in the doc comments.
Steps that can raise a Python exception (`KeyError`, `AttributeError`,
`TypeError`) return `Except String`.
-/

namespace RteEcowatt

/-- String constants used by the flow: step identifiers, error markers and
dictionary keys.  The values come from the string literals of
`config_flow.py` (and `const.py` for the `CONF_*` names, whose values are the
obvious lowercase keys used interchangeably with literals in the source,
e.g. `self.user_input["sensors"]` vs `self.config_entry.data[CONF_SENSORS]`). -/
def step_user : String := "user"

/-- Step id of the options-flow entry step. -/
def step_init : String := "init"

/-- Menu option and step id for finalization. -/
def step_finish_configuration : String := "finish_configuration"

/-- Step id of the hours-sensor form, `configure_hours_sensor`. -/
def step_configure_hours_sensor : String := "configure_hours_sensor"

/-- Step id of the days-sensor form, `configure_days_sensor`. -/
def step_configure_days_sensor : String := "configure_days_sensor"

/-- Step id of the options-flow deletion form. -/
def step_delete_sensor : String := "delete_sensor"

/-- Error-map key used for form-wide errors, `errors["base"]`. -/
def base_key : String := "base"

/-- Marker stored when the OAuth client raises `InvalidClientError`. -/
def auth_error_marker : String := "auth_error"

/-- Marker stored when the OAuth client raises any other exception. -/
def generic_error_marker : String := "generic_error"

/-- Field key of the shift input, `CONF_SENSOR_SHIFT`. -/
def shift_field : String := "shift"

/-- Field error attached by the host when a submitted shift fails the
declared schema.  Modelled from the spec: the host re-shows the same form
with a field error when schema validation fails. -/
def invalid_shift_marker : String := "invalid_shift"

/-- Abort reason of `_abort_if_unique_id_configured`. -/
def already_configured : String := "already_configured"

/-- Title passed to `async_create_entry` in both flows. -/
def entry_title : String := "ecowatt by RTE"

/-- Sensor unit for hour-offset sensors. -/
def unit_hours : String := "hours"

/-- Sensor unit for day-offset sensors. -/
def unit_days : String := "days"

/-- Exception text for `self.user_input[...]` before `self.user_input` exists. -/
def attribute_error_user_input : String := "AttributeError: user_input"

/-- Exception text for reading `self.sensor_map` / `self.all_sensors`
while they are still `None`. -/
def attribute_error_sensor_map : String := "AttributeError: sensor_map"

/-- Exception text for `d["sensors"]` on a dict without the key. -/
def key_error_sensors : String := "KeyError: sensors"

/-- Exception text for `e["path"]` on a sensor dict without the key. -/
def key_error_path : String := "KeyError: path"

/-- Exception text for subscripting `None` (`self.user_input` is `None`
in the options flow until `async_step_init` ran). -/
def type_error_none : String := "TypeError: NoneType"

/-- One sensor dictionary.  The flow appends `{unit, shift}` pairs
(`CONF_SENSOR_UNIT`, `CONF_SENSOR_SHIFT`); sensor dictionaries held in
persisted data may additionally carry a `path` key, which
`async_step_delete_sensor` reads as `e["path"]`.  `path = none` models a
dictionary without the key. -/
structure SensorSpec where
  unit : String
  shift : Int
  path : Option String := none
deriving DecidableEq

/-- The configuration dictionary (`user_input` / `config_entry.data`):
credentials plus the optional `sensors` key.  `sensors = none` models a
dictionary in which the key is absent. -/
structure ConfigData where
  client_id : String
  client_secret : String
  sensors : Option (List SensorSpec) := none
deriving DecidableEq

/-- An entity-registry entry owned by this config entry, as returned by
`async_entries_for_config_entry`: the fields read by the options flow. -/
structure RegistryEntry where
  entity_id : String
  original_name : String
  unique_id : String
deriving DecidableEq

/-- Result value returned by a step handler to the host: one of
`async_show_form`, `async_show_menu`, `async_create_entry` or an abort
raised by `_abort_if_unique_id_configured`.  `createEntry` carries an
optional payload because `OptionsFlowHandler.async_step_finish_configuration`
passes `self.user_input`, which may still be `None`. -/
inductive FlowResult where
  | showForm (step_id : String) (errors : List (String × String))
  | showMenu (step_id : String) (menu_options : List String)
  | createEntry (title : String) (data : Option ConfigData)
  | abort (reason : String)
deriving DecidableEq

/-- Outcome of the credential-validation round trip
(`AsyncOauthClient(user_input).client()`): either it succeeds, raises
`rfc6749.errors.InvalidClientError`, or raises some other exception.
These are exactly the three branches of the `try` in `async_step_user`. -/
inductive AuthOutcome where
  | valid
  | invalidClient
  | otherError
deriving DecidableEq

/-- Membership test of `vol.In(range(n))` after `vol.Coerce(int)`:
the coerced integer must lie in `[0, n)`. -/
def vol_In_range (n : Int) (v : Int) : Bool := decide (0 ≤ v ∧ v < n)

/-- Mutable state of `SetupConfigFlow`: the only attribute the flow writes is
`self.user_input`, unset (`none`) until credentials validate. -/
structure SetupState where
  user_input : Option ConfigData := none
deriving DecidableEq

/-- Fresh setup-flow instance: `self.user_input` not yet assigned. -/
def initialSetupState : SetupState := {}

namespace SetupConfigFlow

/-- Embeds `SetupConfigFlow._configuration_menu`: shows the three-option
menu under the given step id.  The method reads and writes no attribute. -/
def _configuration_menu (step_id : String) : FlowResult :=
  .showMenu step_id
    [step_finish_configuration, step_configure_hours_sensor,
     step_configure_days_sensor]

/-- Embeds `SetupConfigFlow.async_step_user`.  With no input the credentials
form is shown.  With input, the OAuth round trip (whose outcome is the
`outcome` parameter) classifies the submission: `InvalidClientError` sets
`errors["base"] = "auth_error"`, any other exception sets
`errors["base"] = "generic_error"`, both re-showing the form with the state
untouched.  On success the submitted dict becomes `self.user_input`, the
`sensors` key is defaulted to `[]` when absent, and the menu is shown. -/
def async_step_user (s : SetupState) (user_input : Option ConfigData)
    (outcome : AuthOutcome) : FlowResult × SetupState :=
  match user_input with
  | none => (.showForm step_user [], s)
  | some inp =>
    match outcome with
    | .invalidClient => (.showForm step_user [(base_key, auth_error_marker)], s)
    | .otherError => (.showForm step_user [(base_key, generic_error_marker)], s)
    | .valid =>
        let record :=
          match inp.sensors with
          | none => { inp with sensors := some [] }
          | some _ => inp
        (_configuration_menu step_user, { user_input := some record })

/-- Embeds `SetupConfigFlow._manual_configuration_step` together with the
host's handling of the declared schema
`vol.All(vol.Coerce(int), vol.In(range(bound)))`.  Modelled from the spec for
the host side: the host validates submitted input against the schema before
the handler's submit branch runs, and a value failing it re-shows the same
form with a field error.  On an accepted value the handler appends
`{unit, shift}` to `self.user_input["sensors"]` and shows the menu (under
the step's own id).  Reading `self.user_input` before it exists, or its
`sensors` key when absent, raises. -/
def _manual_configuration_step (sensor_unit : String) (bound : Int)
    (s : SetupState) (user_input : Option Int) :
    Except String (FlowResult × SetupState) :=
  let step_name := "configure_" ++ sensor_unit ++ "_sensor"
  match user_input with
  | none => .ok (.showForm step_name [], s)
  | some shift =>
      if vol_In_range bound shift then
        match s.user_input with
        | none => .error attribute_error_user_input
        | some record =>
            match record.sensors with
            | none => .error key_error_sensors
            | some l =>
                let record1 : ConfigData :=
                  { record with
                    sensors := some (l ++ [{ unit := sensor_unit, shift := shift }]) }
                .ok (_configuration_menu step_name, { user_input := some record1 })
      else
        .ok (.showForm step_name [(shift_field, invalid_shift_marker)], s)

/-- Embeds `SetupConfigFlow.async_step_configure_hours_sensor`:
the manual step with unit `hours` and validator `vol.In(range(4 * 24))`. -/
def async_step_configure_hours_sensor (s : SetupState)
    (user_input : Option Int) : Except String (FlowResult × SetupState) :=
  _manual_configuration_step unit_hours (4 * 24) s user_input

/-- Embeds `SetupConfigFlow.async_step_configure_days_sensor`:
the manual step with unit `days` and validator `vol.In(range(4))`. -/
def async_step_configure_days_sensor (s : SetupState)
    (user_input : Option Int) : Except String (FlowResult × SetupState) :=
  _manual_configuration_step unit_days 4 s user_input

/-- Embeds `SetupConfigFlow.async_step_finish_configuration` together with
the host's unique-id registry, passed as the list of already configured
unique ids.  Modelled from the spec for the host side:
`async_set_unique_id(client_id)` followed by `_abort_if_unique_id_configured`
aborts with `already_configured` when the id is registered; otherwise
`async_create_entry` persists the record and registers the id. -/
def async_step_finish_configuration (s : SetupState)
    (configured_ids : List String) :
    Except String (FlowResult × List String) :=
  match s.user_input with
  | none => .error attribute_error_user_input
  | some record =>
      if configured_ids.contains record.client_id then
        .ok (.abort already_configured, configured_ids)
      else
        .ok (.createEntry entry_title (some record),
             record.client_id :: configured_ids)

end SetupConfigFlow

/-- Mutable state of `OptionsFlowHandler` together with the host collaborators
it touches.  The constructor sets `user_input`, `all_sensors`, `sensor_map`
and `entity_registry` to `None`.  Line 152 of the source later assigns
`self.user_input = self.config_entry.data` — a reference assignment, not a
copy — so once assigned, `self.user_input` and `config_entry.data` are the
same dictionary.  The embedding therefore keeps one `configEntryData` record
and a boolean `userInputSet` telling whether `self.user_input` has been
assigned (and hence aliases it).  `registry` holds the host entity-registry
entries owned by this config entry, `registryQueries` counts the
entity-registry queries issued by `async_step_init`, and `removalCalls`
records the entity ids passed to `entity_registry.async_remove`, in call
order. -/
structure OptionsState where
  configEntryData : ConfigData
  userInputSet : Bool := false
  all_sensors : Option (List (String × String)) := none
  sensor_map : Option (List RegistryEntry) := none
  registry : List RegistryEntry := []
  registryQueries : Nat := 0
  removalCalls : List String := []
deriving DecidableEq

namespace OptionsFlowHandler

/-- Embeds `OptionsFlowHandler._configuration_menu`: the four-option menu. -/
def _configuration_menu (step_id : String) : FlowResult :=
  .showMenu step_id
    [step_finish_configuration, step_configure_hours_sensor,
     step_configure_days_sensor, step_delete_sensor]

/-- Embeds `OptionsFlowHandler.async_step_init`.  The guard
`if self.user_input is None` assigns `self.user_input = self.config_entry.data`
on the first entry only (a reference assignment — see `OptionsState`).  The
lines that follow the guard run on every entry: they query the host entity
registry (`async_get_registry` + `async_entries_for_config_entry`) and
rebuild `self.all_sensors` and `self.sensor_map` from the current entries,
then show the menu. -/
def async_step_init (s : OptionsState) : FlowResult × OptionsState :=
  let s1 := if s.userInputSet then s else { s with userInputSet := true }
  let s2 :=
    { s1 with
      registryQueries := s1.registryQueries + 1,
      all_sensors := some (s1.registry.map (fun e => (e.entity_id, e.original_name))),
      sensor_map := some s1.registry }
  (_configuration_menu step_init, s2)

/-- Embeds `OptionsFlowHandler.async_step_finish_configuration`:
`async_create_entry(title=..., data=self.user_input)`.  When
`self.user_input` was assigned it is the same dictionary as
`config_entry.data`; before `async_step_init` ran it is still `None`. -/
def async_step_finish_configuration (s : OptionsState) :
    FlowResult × OptionsState :=
  if s.userInputSet then (.createEntry entry_title (some s.configEntryData), s)
  else (.createEntry entry_title none, s)

/-- Embeds `OptionsFlowHandler._manual_configuration_step` (textually the
same body as the setup-flow version) plus the host's schema handling, as in
`SetupConfigFlow._manual_configuration_step`.  The append
`self.user_input["sensors"].append(...)` goes through the alias, so it
mutates `configEntryData` — the persisted record's dictionary. -/
def _manual_configuration_step (sensor_unit : String) (bound : Int)
    (s : OptionsState) (user_input : Option Int) :
    Except String (FlowResult × OptionsState) :=
  let step_name := "configure_" ++ sensor_unit ++ "_sensor"
  match user_input with
  | none => .ok (.showForm step_name [], s)
  | some shift =>
      if vol_In_range bound shift then
        if s.userInputSet then
          match s.configEntryData.sensors with
          | none => .error key_error_sensors
          | some l =>
              let record1 : ConfigData :=
                { s.configEntryData with
                  sensors := some (l ++ [{ unit := sensor_unit, shift := shift }]) }
              .ok (_configuration_menu step_name, { s with configEntryData := record1 })
        else .error type_error_none
      else
        .ok (.showForm step_name [(shift_field, invalid_shift_marker)], s)

/-- Embeds `OptionsFlowHandler.async_step_configure_hours_sensor`. -/
def async_step_configure_hours_sensor (s : OptionsState)
    (user_input : Option Int) : Except String (FlowResult × OptionsState) :=
  _manual_configuration_step unit_hours (4 * 24) s user_input

/-- Embeds `OptionsFlowHandler.async_step_configure_days_sensor`. -/
def async_step_configure_days_sensor (s : OptionsState)
    (user_input : Option Int) : Except String (FlowResult × OptionsState) :=
  _manual_configuration_step unit_days 4 s user_input

/-- Embeds `entity_registry.async_remove(entity_id)`: the entry with that id
disappears from the registry. -/
def registry_async_remove (registry : List RegistryEntry) (eid : String) :
    List RegistryEntry :=
  registry.filter (fun e => !(e.entity_id == eid))

/-- Embeds the list comprehension
`[e for e in updated_sensor if e["path"] != entry_path]`.  Reading `e["path"]`
on a sensor dictionary without the key raises `KeyError`. -/
def filterPathNe (entry_path : String) :
    List SensorSpec → Except String (List SensorSpec)
  | [] => .ok []
  | e :: rest =>
      match e.path with
      | none => .error key_error_path
      | some p =>
          match filterPathNe entry_path rest with
          | .error msg => .error msg
          | .ok tail => .ok (if p == entry_path then tail else e :: tail)

/-- Embeds the `for entity_id in removed_sensors` loop of
`async_step_delete_sensor`, iterating over the deselected registry entries:
each iteration unregisters the entity from the host registry, records the
call, and filters the local `updated_sensor` list by the entry's
`unique_id`.  The source iterates over the deselected keys of `sensor_map`
and looks each key up again; since `sensor_map` is a dictionary keyed by
`entity_id` (entity ids are unique in the registry), that is iteration over
the deselected entries themselves. -/
def remove_loop (registry : List RegistryEntry) (calls : List String)
    (updated : List SensorSpec) :
    List RegistryEntry →
    Except String (List RegistryEntry × List String × List SensorSpec)
  | [] => .ok (registry, calls, updated)
  | entry :: rest =>
      let registry1 := registry_async_remove registry entry.entity_id
      match filterPathNe entry.unique_id updated with
      | .error msg => .error msg
      | .ok updated1 =>
          remove_loop registry1 (calls ++ [entry.entity_id]) updated1 rest

/-- Embeds the submit branch of `async_step_delete_sensor`: starting from a
deep copy of the persisted sensor list, deselect every `sensor_map` entry
whose `entity_id` is absent from the submitted selection and run the removal
loop.  Returns the final registry, the `async_remove` calls in order, and
the final value of the local variable `updated_sensor`. -/
def delete_sensor_submit (sm : List RegistryEntry)
    (persisted : List SensorSpec) (selection : List String)
    (registry : List RegistryEntry) :
    Except String (List RegistryEntry × List String × List SensorSpec) :=
  let removed_sensors := sm.filter (fun e => !(selection.contains e.entity_id))
  remove_loop registry [] persisted removed_sensors

/-- Embeds `OptionsFlowHandler.async_step_delete_sensor`.  With input, the
submit branch computes `updated_sensor` from
`deepcopy(self.config_entry.data[CONF_SENSORS])` and performs the registry
removals; the source then falls through to `async_show_form` —
`updated_sensor` is a local variable that is never assigned back, and
neither `self.user_input` nor `config_entry.data` is written, so
`configEntryData` is returned unchanged.  Both branches re-show the deletion
form (whose multi-select defaults to all of `self.all_sensors`, raising if
`async_step_init` never ran). -/
def async_step_delete_sensor (s : OptionsState)
    (user_input : Option (List String)) :
    Except String (FlowResult × OptionsState) :=
  match s.all_sensors, s.sensor_map with
  | some _, some sm =>
      match user_input with
      | none => .ok (.showForm step_delete_sensor [], s)
      | some selection =>
          match s.configEntryData.sensors with
          | none => .error key_error_sensors
          | some persisted =>
              match delete_sensor_submit sm persisted selection s.registry with
              | .error msg => .error msg
              | .ok (registry1, calls, _updated_sensor) =>
                  .ok (.showForm step_delete_sensor [],
                    { s with
                      registry := registry1,
                      removalCalls := s.removalCalls ++ calls })
  | _, _ => .error attribute_error_sensor_map

end OptionsFlowHandler

/-- One user interaction with the setup flow: a submission (or first visit)
of the credentials form, the hours-sensor form, or the days-sensor form.
The credentials event carries the outcome of the OAuth round trip. -/
inductive SetupEvent where
  | credentials (input : Option ConfigData) (outcome : AuthOutcome)
  | hours (input : Option Int)
  | days (input : Option Int)

/-- State reached after a possibly-raising step: a step that raises
(`Except.error`) leaves the flow state as it was. -/
def stepOutcome (s : SetupState)
    (r : Except String (FlowResult × SetupState)) : SetupState :=
  match r with
  | .ok p => p.2
  | .error _ => s

/-- State reached after one setup-flow event, using `stepOutcome` for the
steps that may raise. -/
def setupStep (s : SetupState) : SetupEvent → SetupState
  | .credentials input outcome => (SetupConfigFlow.async_step_user s input outcome).2
  | .hours input =>
      stepOutcome s (SetupConfigFlow.async_step_configure_hours_sensor s input)
  | .days input =>
      stepOutcome s (SetupConfigFlow.async_step_configure_days_sensor s input)

/-- State reached after a sequence of setup-flow events. -/
def setupRun (s : SetupState) (evs : List SetupEvent) : SetupState :=
  evs.foldl setupStep s

/-- Invariant of the working record: whenever `self.user_input` has been
assigned, its dictionary contains the `sensors` key. -/
def sensors_key_present (s : SetupState) : Prop :=
  ∀ r, s.user_input = some r → (r.sensors).isSome = true

/-- Rendering the setup-flow menu: `_configuration_menu` reads and writes no
attribute, so a visit returns the menu and leaves the state as it was. -/
def setup_menu_visit (step_id : String) (s : SetupState) :
    FlowResult × SetupState :=
  (SetupConfigFlow._configuration_menu step_id, s)

/-- State after `n` consecutive setup-flow menu renderings. -/
def setup_menu_visits (step_id : String) : Nat → SetupState → SetupState
  | 0, s => s
  | n + 1, s => setup_menu_visits step_id n (setup_menu_visit step_id s).2

/-- Rendering the options-flow menu, likewise attribute-free. -/
def options_menu_visit (step_id : String) (s : OptionsState) :
    FlowResult × OptionsState :=
  (OptionsFlowHandler._configuration_menu step_id, s)

/-- State after `n` consecutive options-flow menu renderings. -/
def options_menu_visits (step_id : String) : Nat → OptionsState → OptionsState
  | 0, s => s
  | n + 1, s => options_menu_visits step_id n (options_menu_visit step_id s).2

/-- Concrete persisted record used by the demonstration runs. -/
def demo_record : ConfigData :=
  { client_id := "demo_client", client_secret := "demo_secret",
    sensors := some [] }

/-- Concrete credentials submission without a `sensors` key. -/
def demo_submission : ConfigData :=
  { client_id := "demo_client", client_secret := "demo_secret" }

/-- Unique path identifier of entity `A`. -/
def path_a : String := "path_a"

/-- Unique path identifier of entity `B`. -/
def path_b : String := "path_b"

/-- Unique path identifier of entity `C`. -/
def path_c : String := "path_c"

/-- Concrete registry entry `A`. -/
def entry_a : RegistryEntry :=
  { entity_id := "sensor.rte_a", original_name := "A", unique_id := path_a }

/-- Concrete registry entry `B`. -/
def entry_b : RegistryEntry :=
  { entity_id := "sensor.rte_b", original_name := "B", unique_id := path_b }

/-- Concrete registry entry `C`. -/
def entry_c : RegistryEntry :=
  { entity_id := "sensor.rte_c", original_name := "C", unique_id := path_c }

/-- Concrete persisted sensor dictionary matching `entry_a`. -/
def spec_a : SensorSpec := { unit := unit_hours, shift := 1, path := some path_a }

/-- Concrete persisted sensor dictionary matching `entry_b`. -/
def spec_b : SensorSpec := { unit := unit_hours, shift := 2, path := some path_b }

/-- Concrete persisted sensor dictionary matching `entry_c`. -/
def spec_c : SensorSpec := { unit := unit_days, shift := 3, path := some path_c }

/-- Second sensor dictionary sharing `entry_b`'s path, to exercise the
duplicate-path behaviour of the deletion filter. -/
def spec_b2 : SensorSpec := { unit := unit_days, shift := 0, path := some path_b }

/-- Options-flow state as it stands right after `async_step_init` ran on a
config entry owning entities `A`, `B`, `C`, whose persisted record lists the
three matching sensor dictionaries. -/
def delete_demo_state : OptionsState :=
  { configEntryData :=
      { demo_record with sensors := some [spec_a, spec_b, spec_c] },
    userInputSet := true,
    all_sensors := some
      [(entry_a.entity_id, entry_a.original_name),
       (entry_b.entity_id, entry_b.original_name),
       (entry_c.entity_id, entry_c.original_name)],
    sensor_map := some [entry_a, entry_b, entry_c],
    registry := [entry_a, entry_b, entry_c],
    registryQueries := 1 }

/-- Submitted multi-select keeping `A` and `C`, deselecting `B`. -/
def delete_demo_selection : List String := [entry_a.entity_id, entry_c.entity_id]

/-- Fresh options-flow state over `demo_record` (nothing queried yet). -/
def c6_state0 : OptionsState := { configEntryData := demo_record }

/-- Options-flow state after the first `async_step_init`. -/
def c6_state1 : OptionsState := (OptionsFlowHandler.async_step_init c6_state0).2

/-- Fresh options-flow state whose config entry owns entity `A`. -/
def c9_state0 : OptionsState :=
  { configEntryData := demo_record, registry := [entry_a] }

/-- State after the first entry to `async_step_init`. -/
def c9_state1 : OptionsState := (OptionsFlowHandler.async_step_init c9_state0).2

/-- Same state after the host registry changed between menu round trips
(entity `A` disappeared). -/
def c9_drifted : OptionsState := { c9_state1 with registry := [] }

/-- State after re-entering `async_step_init`. -/
def c9_state2 : OptionsState := (OptionsFlowHandler.async_step_init c9_drifted).2

/-- Event list validating credentials once. -/
def demo_events : List SetupEvent :=
  [SetupEvent.credentials (some demo_submission) AuthOutcome.valid]

/-- Working record created by validating `demo_submission`. -/
def demo_valid_record : ConfigData := { demo_submission with sensors := some [] }

/-!
Theorems, one per claim of the specification.
-/

/-- C2: for every credential input accepted by the validator, submitting the
credentials step shows the configuration menu, and the working record's
`sensors` list exists and is empty unless the submitted input already
supplied one (`inp.sensors.getD []`). -/
theorem valid_credentials_to_menu (s : SetupState) (inp : ConfigData) :
    SetupConfigFlow.async_step_user s (some inp) AuthOutcome.valid =
      (SetupConfigFlow._configuration_menu step_user,
       { user_input := some { inp with sensors := some ((inp.sensors).getD []) } }) := by
  rcases inp with ⟨cid, cs, sens⟩
  cases sens <;> rfl

/-- C3: a failing credential submission is classified into exactly the two
branches of the `try` block: `InvalidClientError` re-shows the credentials
form with the `auth_error` marker, any other exception re-shows it with the
`generic_error` marker; in both cases the returned state is the input state
unchanged, so no working record is created. -/
theorem rejected_credentials_reshow_form (s : SetupState) (inp : ConfigData) :
    SetupConfigFlow.async_step_user s (some inp) AuthOutcome.invalidClient =
      (.showForm step_user [(base_key, auth_error_marker)], s) ∧
    SetupConfigFlow.async_step_user s (some inp) AuthOutcome.otherError =
      (.showForm step_user [(base_key, generic_error_marker)], s) :=
  ⟨rfl, rfl⟩

/-- C7: rendering the menu any number of times, in either flow, returns the
state (and with it the working record) exactly as it was. -/
theorem menu_visits_preserve_record (step_id : String) (n : Nat)
    (s : SetupState) (os : OptionsState) :
    setup_menu_visits step_id n s = s ∧
    options_menu_visits step_id n os = os := by
  constructor
  · induction n with
    | zero => rfl
    | succ k ih => exact ih
  · induction n with
    | zero => rfl
    | succ k ih => exact ih

/-- C5: finalization registers `client_id` as the unique identity.  A first
flow finalizing an unregistered id emits the record and registers the id; a
second independent flow finalizing a record with the same `client_id`
aborts with `already_configured`, and the set of configured ids (hence the
persisted records) is left unchanged. -/
theorem finish_duplicate_instance (r1 r2 : ConfigData) (ids : List String)
    (heq : r2.client_id = r1.client_id)
    (hnew : ids.contains r1.client_id = false) :
    SetupConfigFlow.async_step_finish_configuration { user_input := some r1 } ids =
      .ok (.createEntry entry_title (some r1), r1.client_id :: ids) ∧
    SetupConfigFlow.async_step_finish_configuration { user_input := some r2 }
        (r1.client_id :: ids) =
      .ok (.abort already_configured, r1.client_id :: ids) := by
  have h1 : r1.client_id ∉ ids := by simpa using hnew
  constructor
  · simp [SetupConfigFlow.async_step_finish_configuration, h1]
  · simp [SetupConfigFlow.async_step_finish_configuration, heq]

/-- Closed instance of C5 at concrete records, both flows using
`demo_record`'s client id. -/
theorem finish_duplicate_instance_witness :
    SetupConfigFlow.async_step_finish_configuration { user_input := some demo_record } [] =
      .ok (.createEntry entry_title (some demo_record), [demo_record.client_id]) ∧
    SetupConfigFlow.async_step_finish_configuration { user_input := some demo_record }
        [demo_record.client_id] =
      .ok (.abort already_configured, [demo_record.client_id]) :=
  finish_duplicate_instance demo_record demo_record [] rfl rfl

/-- C1 (code bug): with entities `A, B, C` and persisted sensor dictionaries
for each, submitting the selection `A, C` does unregister `B` from the host
entity registry (one `async_remove` call), and the submit branch does
compute the filtered list `[spec_a, spec_c]` — but only into the local
variable `updated_sensor`, which is never assigned back: the working
record's sensor list in the returned state still contains `spec_b`.  The
first conjunct pins the full result state (registry shrunk, removal
recorded, `configEntryData` untouched); the middle conjunct makes the
surviving `spec_b` explicit; the last conjunct shows the discarded local
value. -/
theorem delete_sensor_discards_filtered_list :
    OptionsFlowHandler.async_step_delete_sensor delete_demo_state
        (some delete_demo_selection) =
      .ok (.showForm step_delete_sensor [],
        { delete_demo_state with
          registry := [entry_a, entry_c],
          removalCalls := [entry_b.entity_id] }) ∧
    ({ delete_demo_state with
        registry := [entry_a, entry_c],
        removalCalls := [entry_b.entity_id] } : OptionsState).configEntryData.sensors =
      some [spec_a, spec_b, spec_c] ∧
    OptionsFlowHandler.delete_sensor_submit [entry_a, entry_b, entry_c]
        [spec_a, spec_b, spec_c] delete_demo_selection
        [entry_a, entry_b, entry_c] =
      .ok ([entry_a, entry_c], [entry_b.entity_id], [spec_a, spec_c]) := by
  refine ⟨?_, rfl, ?_⟩ <;> rfl

/-- C6 (code bug): `async_step_init` assigns `self.user_input` by reference,
not by copy, so an options-flow sensor submission that is never finalized
still changes `config_entry.data`: starting from the persisted record with
an empty sensor list, one hours-sensor submission leaves the flow's
`configEntryData` — the persisted record's dictionary — with the appended
spec, although `async_create_entry` was never reached, while the original
record value had an empty list. -/
theorem options_append_mutates_persisted_record :
    OptionsFlowHandler.async_step_configure_hours_sensor c6_state1 (some 0) =
      .ok (OptionsFlowHandler._configuration_menu step_configure_hours_sensor,
        { c6_state1 with
          configEntryData :=
            { demo_record with sensors := some [{ unit := unit_hours, shift := 0 }] } }) ∧
    demo_record.sensors = some [] :=
  ⟨rfl, rfl⟩

/-- C9 refuted as stated: the registry query and the snapshot build sit
outside the first-entry guard, so a second entry to `init` queries the host
registry again (query count `2`, not `1`) and rebuilds the snapshot — here
the rebuilt snapshot even differs, because the registry changed between the
two entries.  Under the claim the second entry would neither query nor
rebuild. -/
theorem init_requeries_on_reentry_cex :
    c9_state2.registryQueries = 2 ∧ c9_state2.all_sensors ≠ c9_state1.all_sensors :=
  ⟨rfl, by decide⟩

/-- C9 amended: only the working-record assignment is guarded to the first
entry; the entity snapshot is rebuilt by querying the host registry on
every entry to `init`, from the registry's current contents, with the
record (`configEntryData`) and the remaining fields untouched. -/
theorem init_rebuilds_snapshot_every_entry (s : OptionsState) :
    OptionsFlowHandler.async_step_init s =
      (OptionsFlowHandler._configuration_menu step_init,
       { s with
         userInputSet := true,
         registryQueries := s.registryQueries + 1,
         all_sensors := some (s.registry.map (fun e => (e.entity_id, e.original_name))),
         sensor_map := some s.registry }) := by
  rcases s with ⟨d, ui, als, sm, reg, q, rc⟩
  cases ui <;> rfl

/-- C4: a shift submitted to the hours form is accepted exactly on `[0, 96)`
and to the days form exactly on `[0, 4)`.  An accepted value appends
`{unit, shift}` at the end of the working record's sensor list (hence
submission order over repeated submissions) and shows the menu; a value
outside the range re-shows the same form with a field error and returns
the state unchanged, appending nothing. -/
theorem configure_shift_contract (record : ConfigData) (l : List SensorSpec) (v : Int) :
    (0 ≤ v ∧ v < 96 →
      SetupConfigFlow.async_step_configure_hours_sensor
          { user_input := some { record with sensors := some l } } (some v) =
        .ok (SetupConfigFlow._configuration_menu step_configure_hours_sensor,
          { user_input := some { record with
              sensors := some (l ++ [{ unit := unit_hours, shift := v }]) } })) ∧
    (v < 0 ∨ 96 ≤ v →
      SetupConfigFlow.async_step_configure_hours_sensor
          { user_input := some { record with sensors := some l } } (some v) =
        .ok (.showForm step_configure_hours_sensor [(shift_field, invalid_shift_marker)],
          { user_input := some { record with sensors := some l } })) ∧
    (0 ≤ v ∧ v < 4 →
      SetupConfigFlow.async_step_configure_days_sensor
          { user_input := some { record with sensors := some l } } (some v) =
        .ok (SetupConfigFlow._configuration_menu step_configure_days_sensor,
          { user_input := some { record with
              sensors := some (l ++ [{ unit := unit_days, shift := v }]) } })) ∧
    (v < 0 ∨ 4 ≤ v →
      SetupConfigFlow.async_step_configure_days_sensor
          { user_input := some { record with sensors := some l } } (some v) =
        .ok (.showForm step_configure_days_sensor [(shift_field, invalid_shift_marker)],
          { user_input := some { record with sensors := some l } })) := by
  refine ⟨?_, ?_, ?_, ?_⟩
  · intro h
    have hb : vol_In_range 96 v = true := by
      simp [vol_In_range]
      omega
    simp [SetupConfigFlow.async_step_configure_hours_sensor,
          SetupConfigFlow._manual_configuration_step, hb]
    rfl
  · intro h
    have hb : vol_In_range 96 v = false := by
      simp [vol_In_range]
      omega
    simp [SetupConfigFlow.async_step_configure_hours_sensor,
          SetupConfigFlow._manual_configuration_step, hb]
    rfl
  · intro h
    have hb : vol_In_range 4 v = true := by
      simp [vol_In_range]
      omega
    simp [SetupConfigFlow.async_step_configure_days_sensor,
          SetupConfigFlow._manual_configuration_step, hb]
    rfl
  · intro h
    have hb : vol_In_range 4 v = false := by
      simp [vol_In_range]
      omega
    simp [SetupConfigFlow.async_step_configure_days_sensor,
          SetupConfigFlow._manual_configuration_step, hb]
    rfl

/-- Closed instance of C4: an in-range hours shift (`5`) is appended; an
out-of-range days shift (`7`) is rejected with the form re-shown and the
sensor list untouched. -/
theorem configure_shift_contract_witness :
    SetupConfigFlow.async_step_configure_hours_sensor
        { user_input := some { demo_record with sensors := some [] } } (some 5) =
      .ok (SetupConfigFlow._configuration_menu step_configure_hours_sensor,
        { user_input := some { demo_record with
            sensors := some [{ unit := unit_hours, shift := 5 }] } }) ∧
    SetupConfigFlow.async_step_configure_days_sensor
        { user_input := some { demo_record with sensors := some [] } } (some 7) =
      .ok (.showForm step_configure_days_sensor [(shift_field, invalid_shift_marker)],
        { user_input := some { demo_record with sensors := some [] } }) := by
  constructor
  · have h := (configure_shift_contract demo_record [] 5).1 (by decide)
    simpa using h
  · have h := (configure_shift_contract demo_record [] 7).2.2.2 (by decide)
    simpa using h

/-- Helper: the manual configuration step preserves the sensors-key
invariant, whatever its input and outcome. -/
theorem manual_step_preserves_sensors_key (sensor_unit : String) (bound : Int)
    (s : SetupState) (input : Option Int) (h : sensors_key_present s) :
    sensors_key_present
      (stepOutcome s (SetupConfigFlow._manual_configuration_step sensor_unit bound s input)) := by
  cases input with
  | none => exact h
  | some v =>
      by_cases hb : vol_In_range bound v = true
      · cases hui : s.user_input with
        | none =>
            simp [SetupConfigFlow._manual_configuration_step, hb, hui, stepOutcome]
            exact h
        | some record =>
            cases hsen : record.sensors with
            | none =>
                simp [SetupConfigFlow._manual_configuration_step, hb, hui, hsen, stepOutcome]
                exact h
            | some l =>
                intro r hr
                simp [SetupConfigFlow._manual_configuration_step, hb, hui, hsen, stepOutcome] at hr
                subst hr
                simp
      · rw [Bool.not_eq_true] at hb
        simp [SetupConfigFlow._manual_configuration_step, hb, stepOutcome]
        exact h

/-- Helper: every setup-flow event preserves the sensors-key invariant. -/
theorem setupStep_preserves_sensors_key (s : SetupState) (e : SetupEvent)
    (h : sensors_key_present s) : sensors_key_present (setupStep s e) := by
  cases e with
  | credentials input outcome =>
      cases input with
      | none => exact h
      | some inp =>
          cases outcome with
          | invalidClient => exact h
          | otherError => exact h
          | valid =>
              intro r hr
              cases hsen : inp.sensors with
              | none =>
                  simp [setupStep, SetupConfigFlow.async_step_user, hsen] at hr
                  subst hr
                  simp
              | some l =>
                  simp [setupStep, SetupConfigFlow.async_step_user, hsen] at hr
                  subst hr
                  simp [hsen]
  | hours input => exact manual_step_preserves_sensors_key unit_hours (4 * 24) s input h
  | days input => exact manual_step_preserves_sensors_key unit_days 4 s input h

/-- Helper: the invariant is preserved along any event sequence. -/
theorem setupRun_preserves_sensors_key (evs : List SetupEvent) :
    ∀ (s : SetupState), sensors_key_present s →
      sensors_key_present (setupRun s evs) := by
  induction evs with
  | nil => intro s h; exact h
  | cons e rest ih =>
      intro s h
      exact ih (setupStep s e) (setupStep_preserves_sensors_key s e h)

/-- C8: from a fresh setup flow, after any event sequence the working
record — whenever it exists, i.e. after credential validation succeeded —
contains the `sensors` key, and consequently every record emitted by
`async_step_finish_configuration` via `createEntry` carries a sensors
sequence. -/
theorem sensors_key_invariant (evs : List SetupEvent) :
    sensors_key_present (setupRun initialSetupState evs) ∧
    ∀ ids t d ids1,
      SetupConfigFlow.async_step_finish_configuration (setupRun initialSetupState evs) ids =
        .ok (.createEntry t (some d), ids1) →
      (d.sensors).isSome = true := by
  have hinv : sensors_key_present (setupRun initialSetupState evs) := by
    apply setupRun_preserves_sensors_key
    intro r hr
    simp [initialSetupState] at hr
  refine ⟨hinv, ?_⟩
  intro ids t d ids1 heq
  cases hui : (setupRun initialSetupState evs).user_input with
  | none => simp [SetupConfigFlow.async_step_finish_configuration, hui] at heq
  | some record =>
      by_cases hc : record.client_id ∈ ids
      · simp [SetupConfigFlow.async_step_finish_configuration, hui, hc] at heq
      · simp [SetupConfigFlow.async_step_finish_configuration, hui, hc] at heq
        obtain ⟨⟨ht, hd⟩, hids⟩ := heq
        subst hd
        exact hinv record hui

/-- Closed instance of C8: after validating `demo_submission` (which has no
`sensors` key) the working record exists and its sensors key is present. -/
theorem sensors_key_invariant_witness :
    (setupRun initialSetupState demo_events).user_input = some demo_valid_record ∧
    ((demo_valid_record).sensors).isSome = true :=
  ⟨rfl, (sensors_key_invariant demo_events).1 demo_valid_record rfl⟩

/-- Helper: on a list whose dictionaries all carry the `path` key, the
comprehension filter succeeds and keeps exactly the specs whose path
differs from the given one. -/
theorem filterPathNe_ok (p : String) (l : List SensorSpec)
    (h : ∀ e ∈ l, (e.path).isSome = true) :
    OptionsFlowHandler.filterPathNe p l =
      .ok (l.filter (fun e => !(e.path == some p))) := by
  induction l with
  | nil => rfl
  | cons e rest ih =>
      obtain ⟨q, hq⟩ := Option.isSome_iff_exists.mp (h e (List.mem_cons_self e rest))
      have h2 : ∀ x ∈ rest, (x.path).isSome = true :=
        fun x hx => h x (List.mem_cons_of_mem e hx)
      rw [OptionsFlowHandler.filterPathNe, hq, ih h2]
      by_cases hqp : q = p
      · subst hqp
        simp [List.filter_cons, hq]
      · simp [List.filter_cons, hq, hqp]

/-- Helper: the removal loop over a list of deselected entries records one
`async_remove` call per entry, in order, and filters the local list by all
of their unique ids at once. -/
theorem remove_loop_ok (ents : List RegistryEntry) :
    ∀ (registry : List RegistryEntry) (calls : List String)
      (updated : List SensorSpec),
      (∀ e ∈ updated, (e.path).isSome = true) →
      ∃ registry1,
        OptionsFlowHandler.remove_loop registry calls updated ents =
          .ok (registry1, calls ++ ents.map (fun e => e.entity_id),
            updated.filter (fun spec =>
              !(ents.any (fun en => spec.path == some en.unique_id)))) := by
  induction ents with
  | nil =>
      intro registry calls updated h
      refine ⟨registry, ?_⟩
      simp [OptionsFlowHandler.remove_loop]
  | cons en rest ih =>
      intro registry calls updated h
      have hkeep : ∀ e ∈ updated.filter (fun spec => !(spec.path == some en.unique_id)),
          (e.path).isSome = true :=
        fun e he => h e (List.mem_of_mem_filter he)
      obtain ⟨registry1, hrec⟩ :=
        ih (OptionsFlowHandler.registry_async_remove registry en.entity_id)
          (calls ++ [en.entity_id])
          (updated.filter (fun spec => !(spec.path == some en.unique_id))) hkeep
      refine ⟨registry1, ?_⟩
      have hstep : OptionsFlowHandler.remove_loop registry calls updated (en :: rest) =
          OptionsFlowHandler.remove_loop
            (OptionsFlowHandler.registry_async_remove registry en.entity_id)
            (calls ++ [en.entity_id])
            (updated.filter (fun spec => !(spec.path == some en.unique_id))) rest := by
        rw [OptionsFlowHandler.remove_loop, filterPathNe_ok en.unique_id updated h]
      rw [hstep, hrec, List.filter_filter]
      have hcalls : calls ++ [en.entity_id] ++ List.map (fun e => e.entity_id) rest =
          calls ++ List.map (fun e => e.entity_id) (en :: rest) := by
        simp
      have hfilt :
          List.filter
            (fun a =>
              (!(rest.any (fun en2 => a.path == some en2.unique_id))) &&
              (!(a.path == some en.unique_id))) updated =
          List.filter
            (fun spec =>
              !((en :: rest).any (fun en2 => spec.path == some en2.unique_id))) updated := by
        apply List.filter_congr
        intro x _
        simp [List.any_cons, Bool.not_or, Bool.and_comm]
      rw [hcalls, hfilt]

/-- C10: the submit branch of `delete_sensor` removes sensor dictionaries by
filtering on the `path` field: for every deselected entity the local list
drops all specs whose path equals that entity's `unique_id` — several specs
sharing one path are removed together — while `async_remove` is called
exactly once per deselected entity (entity ids are unique in the registry,
`hnd`).  The hypotheses: registry entity ids are distinct, and every
persisted sensor dictionary carries the `path` key. -/
theorem delete_filters_by_path (sm : List RegistryEntry)
    (persisted : List SensorSpec) (selection : List String)
    (registry : List RegistryEntry)
    (hnd : (sm.map (fun e => e.entity_id)).Nodup)
    (hp : ∀ e ∈ persisted, (e.path).isSome = true) :
    (∃ registry1,
      OptionsFlowHandler.delete_sensor_submit sm persisted selection registry =
        .ok (registry1,
          (sm.filter (fun e => !(selection.contains e.entity_id))).map
            (fun e => e.entity_id),
          persisted.filter (fun spec =>
            !((sm.filter (fun e => !(selection.contains e.entity_id))).any
              (fun en => spec.path == some en.unique_id))))) ∧
    ∀ e ∈ sm, selection.contains e.entity_id = false →
      ((sm.filter (fun e2 => !(selection.contains e2.entity_id))).map
        (fun e2 => e2.entity_id)).count e.entity_id = 1 := by
  constructor
  · obtain ⟨registry1, hloop⟩ :=
      remove_loop_ok (sm.filter (fun e => !(selection.contains e.entity_id)))
        registry [] persisted hp
    refine ⟨registry1, ?_⟩
    rw [OptionsFlowHandler.delete_sensor_submit, hloop]
    simp
  · intro e he hsel
    have hnd2 :
        ((sm.filter (fun e2 => !(selection.contains e2.entity_id))).map
          (fun e2 => e2.entity_id)).Nodup :=
      List.Nodup.sublist
        (List.Sublist.map (fun e2 => e2.entity_id) (List.filter_sublist sm)) hnd
    have hmem : e.entity_id ∈
        (sm.filter (fun e2 => !(selection.contains e2.entity_id))).map
          (fun e2 => e2.entity_id) := by
      apply List.mem_map_of_mem
      rw [List.mem_filter]
      exact ⟨he, by simpa using hsel⟩
    exact List.count_eq_one_of_mem hnd2 hmem

/-- Concrete snapshot for the C10 instance: entities `A` and `B`. -/
def c10_sm : List RegistryEntry := [entry_a, entry_b]

/-- Concrete persisted sensors, two of which share `entry_b`'s path. -/
def c10_persisted : List SensorSpec := [spec_a, spec_b, spec_b2]

/-- Concrete selection keeping only `A` (deselecting `B`). -/
def c10_selection : List String := [entry_a.entity_id]

/-- Closed instance of C10 at a snapshot where two persisted specs share
`entry_b`'s path: both are filtered out by `B`'s deselection while
`async_remove` is called once per deselected entity. -/
theorem delete_filters_by_path_witness :
    (∃ registry1,
      OptionsFlowHandler.delete_sensor_submit c10_sm c10_persisted c10_selection [] =
        .ok (registry1,
          (c10_sm.filter (fun e => !(c10_selection.contains e.entity_id))).map
            (fun e => e.entity_id),
          c10_persisted.filter (fun spec =>
            !((c10_sm.filter (fun e => !(c10_selection.contains e.entity_id))).any
              (fun en => spec.path == some en.unique_id))))) ∧
    ∀ e ∈ c10_sm, c10_selection.contains e.entity_id = false →
      ((c10_sm.filter (fun e2 => !(c10_selection.contains e2.entity_id))).map
        (fun e2 => e2.entity_id)).count e.entity_id = 1 :=
  delete_filters_by_path c10_sm c10_persisted c10_selection []
    (by decide) (by decide)

end RteEcowatt
